import Mathlib

/-!
Verification of the entity-simulation core of the Asteroids Reborn
repository (player/enemy/asteroid/powerup simulation in
src/game/states/gameplay_state.py, src/game/entities/enemy.py,
src/game/entities/player.py and src/game/utils/collision.py).

Numeric model: the source performs arithmetic on Python floats; we embed it
over `ℚ` (exact arithmetic).  `math.sqrt` has no rational counterpart, so
wherever the source compares a computed Euclidean length
`math.sqrt (dx*dx + dy*dy)` with a bound, the embedding either takes the
length as an explicit nonnegative argument `d` constrained by
`d * d = dx*dx + dy*dy`, or, inside executable list-processing code,
compares squares, which agrees with the source comparison because squaring
is strictly monotone on nonnegative reals.  Outputs of `math.atan2`,
`math.radians`, `math.cos` and `math.sin` are taken as explicit arguments
where the control flow depends only on the resulting value; `math.pi` is
embedded as the exact rational value of the IEEE-754 double Python uses.
`random.*` draws are passed in explicitly, so every function is a
deterministic function of its state plus its random draws.
-/

namespace AsteroidsReborn

/-- An entity as seen by `check_collision` (src/game/utils/collision.py):
anything with `x`, `y` and `radius` attributes. -/
structure Ent where
  x : ℚ
  y : ℚ
  radius : ℚ
  deriving DecidableEq, Repr

/-- Squared distance between two entity centers; the source computes
`math.sqrt` of exactly this quantity. -/
def dist2 (a b : Ent) : ℚ :=
  (a.x - b.x) * (a.x - b.x) + (a.y - b.y) * (a.y - b.y)

/-- `check_collision` from src/game/utils/collision.py.  The source returns
`sqrt(dx*dx + dy*dy) < entity1.radius + entity2.radius`; over `ℚ` we decide
the square-equivalent comparison, and `claim_C9` proves that this coincides
with the source's comparison of the distance itself. -/
def check_collision (entity1 entity2 : Ent) : Bool :=
  decide (dist2 entity1 entity2 <
    (entity1.radius + entity2.radius) * (entity1.radius + entity2.radius))

/-- `self.player.magnet_radius` (src/game/entities/player.py, line 40). -/
def magnet_radius : ℚ := 250

/-- The magnet attraction force for a powerup at distance `d` from the
player (gameplay_state.py line 493:
`force = (1.0 - distance / self.player.magnet_radius) * 12.0`),
extended by zero outside the radius, where the impulse block is skipped. -/
def magnetForce (d : ℚ) : ℚ :=
  if d < magnet_radius then (1 - d / magnet_radius) * 12 else 0

/-- A 2D velocity vector. -/
structure Vec where
  x : ℚ
  y : ℚ
  deriving DecidableEq, Repr

/-- One iteration of the magnet loop (gameplay_state.py lines 482-496) for a
powerup with velocity `vel`, where `(dx, dy)` is the vector from the powerup
to the player and `d` the externally supplied distance (see file header).
Python raises `ZeroDivisionError` on `dx / distance` when the distance is
zero; the embedding returns `none` there. -/
def magnetStep (dx dy d : ℚ) (vel : Vec) : Option Vec :=
  if d < magnet_radius then
    if d = 0 then none
    else some ⟨vel.x + dx / d * magnetForce d, vel.y + dy / d * magnetForce d⟩
  else some vel

/-- The flank-offset computation (enemy.py lines 160-180): given the target
point `(tx, ty)`, the estimated player direction vector `(dirx, diry)` with
length `len`, and the flanking direction `fd`, offset the target
perpendicular to the direction.  The division is guarded by the source's
explicit `if length > 0:` check; when the length is zero the target is
returned unchanged and no division is performed. -/
def flankOffset (tx ty dirx diry len fd : ℚ) : ℚ × ℚ :=
  if 0 < len then
    (tx + -(diry / len) * fd * 150, ty + (dirx / len) * fd * 150)
  else (tx, ty)

/-- The power-up timer fields of the player
(src/game/entities/player.py, constructor lines 27-40). -/
structure PlayerTimers where
  invulnerable : Bool
  invulnerableTimer : ℚ
  rapidFire : Bool
  rapidFireTimer : ℚ
  timeSlow : Bool
  timeSlowTimer : ℚ
  tripleShot : Bool
  tripleShotTimer : ℚ
  magnet : Bool
  magnetTimer : ℚ
  shootCooldown : ℚ
  deriving DecidableEq, Repr

/-- One `if self.X: self.X_timer -= dt; if self.X_timer <= 0: self.X = False`
block from Player.update (player.py lines 148-173). -/
def playerTimerTick (active : Bool) (t dt : ℚ) : Bool × ℚ :=
  if active = true then
    if t - dt ≤ 0 then (false, t - dt) else (true, t - dt)
  else (active, t)

/-- The timer-updating tail of Player.update (player.py lines 148-180):
each power-up timer block, then the shoot-cooldown decrement, which is
doubled while rapid fire is (still) active. -/
def playerUpdateTimers (s : PlayerTimers) (dt : ℚ) : PlayerTimers :=
  { invulnerable := (playerTimerTick s.invulnerable s.invulnerableTimer dt).1
    invulnerableTimer := (playerTimerTick s.invulnerable s.invulnerableTimer dt).2
    rapidFire := (playerTimerTick s.rapidFire s.rapidFireTimer dt).1
    rapidFireTimer := (playerTimerTick s.rapidFire s.rapidFireTimer dt).2
    timeSlow := (playerTimerTick s.timeSlow s.timeSlowTimer dt).1
    timeSlowTimer := (playerTimerTick s.timeSlow s.timeSlowTimer dt).2
    tripleShot := (playerTimerTick s.tripleShot s.tripleShotTimer dt).1
    tripleShotTimer := (playerTimerTick s.tripleShot s.tripleShotTimer dt).2
    magnet := (playerTimerTick s.magnet s.magnetTimer dt).1
    magnetTimer := (playerTimerTick s.magnet s.magnetTimer dt).2
    shootCooldown :=
      if 0 < s.shootCooldown then
        if (playerTimerTick s.rapidFire s.rapidFireTimer dt).1 = true then
          s.shootCooldown - dt * 2
        else s.shootCooldown - dt
      else s.shootCooldown }

/-- One `if self.player.X and self.player.X_timer > 0: self.player.X_timer
-= dt; if self.player.X_timer <= 0: self.player.X = False` block from
GameplayState.update (gameplay_state.py lines 178-202). -/
def gameplayTimerTick (active : Bool) (t dt : ℚ) : Bool × ℚ :=
  if active = true ∧ 0 < t then
    if t - dt ≤ 0 then (false, t - dt) else (true, t - dt)
  else (active, t)

/-- The power-up timer section of GameplayState.update
(gameplay_state.py lines 178-202). -/
def gameplayUpdateTimers (s : PlayerTimers) (dt : ℚ) : PlayerTimers :=
  { s with
    invulnerable := (gameplayTimerTick s.invulnerable s.invulnerableTimer dt).1
    invulnerableTimer := (gameplayTimerTick s.invulnerable s.invulnerableTimer dt).2
    rapidFire := (gameplayTimerTick s.rapidFire s.rapidFireTimer dt).1
    rapidFireTimer := (gameplayTimerTick s.rapidFire s.rapidFireTimer dt).2
    timeSlow := (gameplayTimerTick s.timeSlow s.timeSlowTimer dt).1
    timeSlowTimer := (gameplayTimerTick s.timeSlow s.timeSlowTimer dt).2
    tripleShot := (gameplayTimerTick s.tripleShot s.tripleShotTimer dt).1
    tripleShotTimer := (gameplayTimerTick s.tripleShot s.tripleShotTimer dt).2
    magnet := (gameplayTimerTick s.magnet s.magnetTimer dt).1
    magnetTimer := (gameplayTimerTick s.magnet s.magnetTimer dt).2 }

/-- The effect of one GameplayState.update tick on the player's power-up
timers: `self.player.update(dt, ...)` is called first (gameplay_state.py
line 176) and runs Player.update's own timer blocks, then the gameplay
state's timer blocks (lines 178-202) run on the result. -/
def tickPowerupTimers (s : PlayerTimers) (dt : ℚ) : PlayerTimers :=
  gameplayUpdateTimers (playerUpdateTimers s dt) dt

/-- The player fields touched by GameplayState.player_destroyed. -/
structure PlayerState where
  x : ℚ
  y : ℚ
  velX : ℚ
  velY : ℚ
  rotation : ℚ
  lives : ℤ
  invulnerable : Bool
  invulnerableTimer : ℚ
  deriving DecidableEq, Repr

/-- The gameplay-state fields touched by player_destroyed. -/
structure GameplayS where
  player : PlayerState
  gameOver : Bool
  screenWidth : ℕ
  screenHeight : ℕ
  deriving DecidableEq, Repr

/-- GameplayState.player_destroyed (gameplay_state.py lines 853-1018;
state-mutating part lines 940-997): decrement lives; at `lives <= 0` set the
game-over flag, otherwise reposition the player to the screen center
(integer division, as in Python's `//`), zero the velocity and rotation, and
grant 3.0 seconds of invulnerability.  Particle spawning and sound calls are
render/audio side effects outside the modelled state. -/
def player_destroyed (g : GameplayS) : GameplayS :=
  let p := { g.player with lives := g.player.lives - 1 }
  if p.lives ≤ 0 then
    { g with player := p, gameOver := true }
  else
    { g with player :=
      { p with x := (g.screenWidth / 2 : ℕ), y := (g.screenHeight / 2 : ℕ),
               velX := 0, velY := 0, rotation := 0,
               invulnerable := true, invulnerableTimer := 3 } }

/-- Python's `%` operator on reals with modulus 360: the result lies in
[0, 360). -/
def mod360 (x : ℚ) : ℚ := x - 360 * ⌊x / 360⌋

/-- The shortest-rotation normalization used throughout Enemy.update
(e.g. enemy.py lines 204-206):
`angle_diff = (target_angle - self.rotation) % 360`, then
`if angle_diff > 180: angle_diff -= 360`. -/
def norm180 (x : ℚ) : ℚ :=
  let d := mod360 x
  if 180 < d then d - 360 else d

/-- The heading-correction step (e.g. enemy.py lines 213-217): rotate toward
the target by at most `speed * dt`, never overshooting, and only when the
angular error is significant (`abs(angle_diff) > 5`). -/
def rotateToward (rotation angleDiff speed dt : ℚ) : ℚ :=
  if 5 < |angleDiff| then
    if 0 < angleDiff then rotation + min (speed * dt) |angleDiff|
    else rotation - min (speed * dt) |angleDiff|
  else rotation

namespace Enemy

/-- `self.rotation_speed` (enemy.py line 43). -/
def rotation_speed : ℚ := 160

/-- `self.shoot_rate` (enemy.py line 46). -/
def shoot_rate : ℚ := 9/10

/-- `self.detection_range` (enemy.py line 47). -/
def detection_range : ℚ := 500

/-- The AI behavior states of the enemy (enemy.py line 29). -/
inductive BState
  | seek
  | attack
  | evade
  | ambush
  | flank
  deriving DecidableEq, Repr

/-- The enemy state fields that drive Enemy.update's fire decision and are
mutated by it (enemy.py constructor lines 10-54).  Position and velocity are
abstracted into the geometric inputs of `updateDispatch` (see the file
header), and `last_player_pos` is tracked by its presence
(`hasLastPlayerPos`), since only presence gates control flow. -/
structure State where
  rotation : ℚ
  health : ℤ
  shootCooldown : ℚ
  acceleration : ℚ
  active : Bool
  respawnTimer : ℚ
  behaviorTimer : ℚ
  behaviorState : BState
  hasLastPlayerPos : Bool
  lastDetectionTime : ℚ
  avoidingAsteroid : Bool
  avoidanceDirection : ℚ
  avoidanceTimer : ℚ
  predictionFactor : ℚ
  flankingDirection : ℚ
  burstFireCount : ℤ
  burstFireCooldown : ℚ
  burstFireDelay : ℚ
  shotAccuracy : ℚ
  burstMode : Bool
  strategyChangeTimer : ℚ
  aimPredictTime : ℚ
  deriving DecidableEq, Repr

/-- The `random.*` draws consumed by one call to Enemy.update (and, for the
inactive branch, Enemy.respawn). -/
structure Rand where
  stratFlankDir : ℚ
  stratPredFactor : ℚ
  stratAimPredict : ℚ
  stratTimer : ℚ
  behaviorRoll : ℚ
  behaviorTimerNew : ℚ
  missRoll : ℚ
  evadeRoll : ℚ
  lostRoll : ℚ
  wanderRoll1 : ℚ
  wanderRot : ℚ
  wanderRoll2 : ℚ
  wanderAccel : ℚ
  wanderRoll3 : ℚ
  respawnRotation : ℚ
  respawnAccuracy : ℚ
  respawnFlankDir : ℚ
  respawnPredFactor : ℚ
  respawnStratTimer : ℚ
  deriving DecidableEq, Repr

/-- Enemy.update_behavior_state (enemy.py lines 428-475): weighted-random
state re-selection from the distance band to the player and the enemy's
health; `roll` is the single `random.random()` draw the taken path uses. -/
def updateBehaviorState (s : State) (dist roll : ℚ) : BState :=
  if s.avoidingAsteroid = true then s.behaviorState
  else if dist < 120 then
    if 2 < s.health then (if roll < 7/10 then .attack else .evade)
    else (if roll < 85/100 then .evade else .attack)
  else if dist < 300 then
    if 2 < s.health then
      (if roll < 6/10 then .attack else if roll < 8/10 then .flank else .seek)
    else
      (if roll < 4/10 then .attack else if roll < 7/10 then .flank
       else if roll < 9/10 then .seek else .evade)
  else
    (if roll < 4/10 then .seek else if roll < 7/10 then .ambush else .flank)

/-- Enemy.start_asteroid_avoidance (enemy.py lines 404-426); `cross` is the
2D cross product of (enemy − asteroid) with the asteroid velocity. -/
def startAsteroidAvoidance (s : State) (cross : ℚ) : State :=
  { s with avoidanceDirection := if 0 < cross then 1 else -1,
           avoidingAsteroid := true,
           avoidanceTimer := 1,
           behaviorState := .evade }

/-- The preamble of Enemy.update for an active enemy (enemy.py lines
66-120): strategy-change timer, avoidance timer, burst-fire cooldowns, the
asteroid scan, and the behavior re-selection timer.  The geometric outcome
of the scan is abstracted as `scanCross`: `none` when the asteroid list is
empty or no approaching asteroid is within the asteroid-detection range,
`some cross` for the chosen closest one. -/
def updatePreamble (s : State) (r : Rand) (dt distPlayer : ℚ)
    (scanCross : Option ℚ) : State :=
  let s :=
    if s.strategyChangeTimer - dt ≤ 0 then
      { s with strategyChangeTimer := r.stratTimer,
               burstMode := !s.burstMode,
               flankingDirection := r.stratFlankDir,
               predictionFactor := r.stratPredFactor,
               aimPredictTime := r.stratAimPredict }
    else { s with strategyChangeTimer := s.strategyChangeTimer - dt }
  let s :=
    if s.avoidingAsteroid = true then
      if s.avoidanceTimer - dt ≤ 0 then
        { s with avoidanceTimer := s.avoidanceTimer - dt, avoidingAsteroid := false }
      else { s with avoidanceTimer := s.avoidanceTimer - dt }
    else s
  let s :=
    if 0 < s.burstFireDelay then { s with burstFireDelay := s.burstFireDelay - dt } else s
  let s :=
    if 0 < s.burstFireCooldown then
      { s with burstFireCooldown := s.burstFireCooldown - dt }
    else s
  let s :=
    if s.avoidingAsteroid = false then
      match scanCross with
      | some cross => startAsteroidAvoidance s cross
      | none => s
    else s
  if s.behaviorTimer - dt ≤ 0 ∧ s.avoidingAsteroid = false then
    { s with behaviorState := updateBehaviorState s distPlayer r.behaviorRoll,
             behaviorTimer := r.behaviorTimerNew }
  else { s with behaviorTimer := s.behaviorTimer - dt }

/-- The fire-slot logic inside the 20-degree aim gate (enemy.py lines
244-262): burst mode (3-shot bursts with an intra-burst delay and a longer
post-burst cooldown) or normal cooldown-gated single shots. -/
def fireSlot (s : State) : Bool × State :=
  if s.burstMode = true ∧ s.burstFireCooldown ≤ 0 then
    if 0 < s.burstFireCount ∧ s.burstFireDelay ≤ 0 then
      (true, { s with burstFireCount := s.burstFireCount - 1, burstFireDelay := 15/100 })
    else if s.burstFireCount = 0 then
      (true, { s with burstFireCount := 3 - 1,
                      burstFireCooldown := shoot_rate * (15/10),
                      burstFireDelay := 15/100 })
    else (false, s)
  else
    if s.shootCooldown ≤ 0 then (true, { s with shootCooldown := shoot_rate })
    else (false, s)

/-- The tail of Enemy.update reached whenever no shot was fired (enemy.py
lines 354-402): thrust/velocity/position integration acts on position-level
state outside the model; of the modelled fields only the shoot-cooldown
decrement remains. -/
def updateTail (s : State) (dt : ℚ) : State :=
  if 0 < s.shootCooldown then { s with shootCooldown := s.shootCooldown - dt } else s

/-- The decision section of Enemy.update for an active enemy (enemy.py
lines 122-353 plus the shared tail), operating on the post-preamble state.
`distPlayer` abstracts the computed `sqrt` distance to the player,
`targetAngle` abstracts `math.degrees(math.atan2(dy, dx))` toward the
state-specific target point of the seek/attack/ambush/flank branch
(player position plus prediction, flank or ambush offsets), `angPlayer` the
same heading toward the player itself (negated by the evade branch), and
`lastPosAngle` the heading toward the last known player position.  Returns
the fire decision and the mutated state. -/
def updateDispatch (s : State) (r : Rand)
    (dt distPlayer targetAngle angPlayer lastPosAngle : ℚ) : Bool × State :=
  if s.avoidingAsteroid = true then
    let s := { s with rotation := s.rotation + s.avoidanceDirection * rotation_speed * dt,
                      acceleration := 1 }
    (false, updateTail s dt)
  else if distPlayer < detection_range then
    let s := { s with hasLastPlayerPos := true, lastDetectionTime := 0 }
    if s.behaviorState = .seek ∨ s.behaviorState = .attack ∨
        s.behaviorState = .ambush ∨ s.behaviorState = .flank then
      let angleDiff := norm180 (targetAngle - s.rotation)
      let rotSpeed := if s.behaviorState = .attack then rotation_speed * (12/10)
                      else rotation_speed
      let s := { s with rotation := rotateToward s.rotation angleDiff rotSpeed dt }
      let s := { s with acceleration :=
        match s.behaviorState with
        | .seek => 7/10
        | .attack => 1
        | .ambush => 9/10
        | .flank => 8/10
        | .evade => s.acceleration }
      let aimAngleDiff := |angleDiff|
      if aimAngleDiff < 20 then
        let firingAccuracy := s.shotAccuracy * (1 - aimAngleDiff / 20 * (3/10))
        let fs := fireSlot s
        let shouldFire := fs.1 && !(decide (firingAccuracy < r.missRoll))
        if shouldFire = true then (true, fs.2) else (false, updateTail fs.2 dt)
      else (false, updateTail s dt)
    else if s.behaviorState = .evade then
      let evadeTarget := mod360 (angPlayer + 180)
      let angleDiff := norm180 (evadeTarget - s.rotation)
      let s := { s with rotation := rotateToward s.rotation angleDiff rotation_speed dt,
                        acceleration := 1 }
      if 1 < s.health ∧ s.shootCooldown ≤ 0 ∧ r.evadeRoll < 3/10 then
        (true, { s with shootCooldown := shoot_rate * (15/10) })
      else (false, updateTail s dt)
    else (false, updateTail s dt)
  else
    let s := { s with lastDetectionTime := s.lastDetectionTime + dt }
    if s.hasLastPlayerPos = true ∧ s.lastDetectionTime < 7 then
      let angleDiff := norm180 (lastPosAngle - s.rotation)
      let s := { s with rotation := rotateToward s.rotation angleDiff rotation_speed dt,
                        acceleration := 6/10 }
      if s.shootCooldown ≤ 0 ∧ r.lostRoll < 1/10 ∧ |angleDiff| < 30 then
        (true, { s with shootCooldown := shoot_rate * (13/10) })
      else (false, updateTail s dt)
    else
      let s := if r.wanderRoll1 < 3/100 then { s with rotation := s.rotation + r.wanderRot }
               else s
      let s := if r.wanderRoll2 < 8/100 then { s with acceleration := r.wanderAccel }
               else { s with acceleration := max 0 (s.acceleration - (1/10) * dt) }
      if s.shootCooldown ≤ 0 ∧ r.wanderRoll3 < 2/100 then
        (true, { s with shootCooldown := shoot_rate * (15/10) })
      else (false, updateTail s dt)

/-- Enemy.update (enemy.py lines 56-402) over the modelled state: returns
the fire decision (`should_fire`) and the mutated state.  Geometric inputs
are abstracted as documented on `updateDispatch`; `scanCross` abstracts the
asteroid scan as documented on `updatePreamble`.  For an inactive enemy the
respawn path (enemy.py lines 58-63 and 494-527) resets the strategy state;
the resampled position is position-level state outside the model. -/
def update (s : State) (r : Rand)
    (dt distPlayer targetAngle angPlayer lastPosAngle : ℚ)
    (scanCross : Option ℚ) : Bool × State :=
  if s.active = false then
    if s.respawnTimer - dt ≤ 0 then
      (false, { s with respawnTimer := s.respawnTimer - dt,
                       rotation := r.respawnRotation, health := 4,
                       active := true, behaviorState := .seek,
                       hasLastPlayerPos := false,
                       avoidingAsteroid := false, avoidanceTimer := 0,
                       burstFireCount := 0, burstFireCooldown := 0, burstFireDelay := 0,
                       flankingDirection := r.respawnFlankDir,
                       predictionFactor := r.respawnPredFactor,
                       strategyChangeTimer := r.respawnStratTimer,
                       shotAccuracy := r.respawnAccuracy })
    else (false, { s with respawnTimer := s.respawnTimer - dt })
  else
    updateDispatch (updatePreamble s r dt distPlayer scanCross) r
      dt distPlayer targetAngle angPlayer lastPosAngle

/-- Enemy.take_damage (enemy.py lines 477-492); `coin` is the
`random.random()` draw on the damaged-but-alive branch. -/
def take_damage (s : State) (coin : ℚ) : Bool × State :=
  let s := { s with health := s.health - 1 }
  if s.health ≤ 0 then
    (true, { s with active := false, respawnTimer := 8 })
  else if coin < 1/2 then
    (false, { s with behaviorState := .attack,
                     shotAccuracy := min (99/100) (s.shotAccuracy + 5/100) })
  else
    (false, { s with behaviorState := .evade })

end Enemy

/-- `math.pi`: the exact rational value of the IEEE-754 double Python's
math module uses (884279719003555 / 2^48). -/
def mathPi : ℚ := 884279719003555 / 281474976710656

/-- The body of the projectile-versus-enemy collision handler
(gameplay_state.py lines 386-436), entered when the enemy is active and
`check_collision(projectile, self.enemy)` holds.  `playerAngleRad` is
`math.radians(self.player.rotation)`, `projAngleRad` is
`math.atan2(projectile.vel_y, projectile.vel_x)`, both taken as inputs (see
the file header); `coin` feeds `take_damage`.  When the angle difference
marks the projectile as the player's, the enemy takes damage and, if
destroyed, 500 is added to the score.  Particles and sounds are
render/audio side effects outside the modelled state. -/
def projectileEnemyHit (e : Enemy.State) (score : ℤ)
    (playerAngleRad projAngleRad coin : ℚ) : Enemy.State × ℤ :=
  let angleDiff := |playerAngleRad - projAngleRad|
  if angleDiff < 1/2 ∨ 2 * mathPi - 1/2 < angleDiff then
    let hit := Enemy.take_damage e coin
    if hit.1 = true then (hit.2, score + 500) else (hit.2, score)
  else (e, score)

/-- Asteroid sizes (asteroid.py lines 20-28). -/
inductive ASize
  | large
  | medium
  | small
  deriving DecidableEq, Repr

/-- Asteroid types (gameplay_state.py line 108). -/
inductive AType
  | normal
  | ice
  | mineral
  | unstable
  deriving DecidableEq, Repr

/-- The asteroid fields relevant to destruction handling (asteroid.py
constructor lines 9-38).  `id` models Python object identity: the gameplay
code removes asteroids with `list.remove(obj)`, which compares by identity
for these objects, so distinct live asteroids always have distinct ids. -/
structure Asteroid where
  id : ℕ
  x : ℚ
  y : ℚ
  velX : ℚ
  velY : ℚ
  size : ASize
  type : AType
  deriving DecidableEq, Repr

/-- The size-based score table of handle_asteroid_hit (gameplay_state.py
lines 507-512). -/
def sizeScore : ASize → ℤ
  | .large => 100
  | .medium => 150
  | .small => 200

/-- The type-based extra score of handle_asteroid_hit (gameplay_state.py
lines 515-518). -/
def typeBonus : AType → ℤ
  | .mineral => 50
  | .unstable => 75
  | _ => 0

/-- The child size produced when an asteroid of the given size is broken
(gameplay_state.py lines 632, 642): large → medium, medium → small,
small → none. -/
def childSize : ASize → Option ASize
  | .large => some .medium
  | .medium => some .small
  | .small => none

/-- The `random.uniform` velocity draws and the identities of the two
children spawned by a split. -/
structure SplitRand where
  id1 : ℕ
  vx1 : ℚ
  vy1 : ℚ
  id2 : ℕ
  vx2 : ℚ
  vy2 : ℚ
  deriving DecidableEq, Repr

/-- The split of handle_asteroid_hit (gameplay_state.py lines 631-651): a
large asteroid spawns two medium children, a medium one two small children,
a small one none; children are constructed at the destroyed asteroid's
`(x, y)` with the same type and randomized velocities. -/
def splitChildren (a : Asteroid) (r : SplitRand) : List Asteroid :=
  match childSize a.size with
  | some sz =>
      [⟨r.id1, a.x, a.y, r.vx1, r.vy1, sz, a.type⟩,
       ⟨r.id2, a.x, a.y, r.vx2, r.vy2, sz, a.type⟩]
  | none => []

/-- Python's `list.remove(obj)` for asteroid objects: removes the first
occurrence of the object with the given identity (a no-op if absent; the
gameplay code only calls it on present elements). -/
def removeById (i : ℕ) (l : List Asteroid) : List Asteroid :=
  List.eraseP (fun b => b.id == i) l

/-- The blast-radius test of the unstable chain reaction (gameplay_state.py
lines 657-660): `sqrt(dx*dx + dy*dy) < 100`, decided over `ℚ` by the
square-equivalent comparison. -/
def inBlast (cx cy : ℚ) (b : Asteroid) : Bool :=
  decide ((b.x - cx) * (b.x - cx) + (b.y - cy) * (b.y - cy) < 100 * 100)

/-- The unstable chain reaction (gameplay_state.py lines 654-700): iterate
over a copy (`self.asteroids[:]`) of the collection taken at the start of
the scan, and remove from the live collection every asteroid whose distance
to the destroyed asteroid's position `(cx, cy)` is below the blast
radius 100. -/
def chainReaction (cx cy : ℚ) (l : List Asteroid) : List Asteroid :=
  l.foldl (fun cur b => if inBlast cx cy b then removeById b.id cur else cur) l

/-- The ids on which the chain-reaction scan over `l` attempts a removal:
one attempt for each element of the iterated copy that lies in the blast
radius. -/
def chainRemovals (cx cy : ℚ) (l : List Asteroid) : List ℕ :=
  (l.filter (inBlast cx cy)).map Asteroid.id

/-- GameplayState.handle_asteroid_hit (gameplay_state.py lines 498-774)
restricted to the asteroid collection and the score: remove the hit
asteroid, add the size/type score, append the split children, and for an
unstable asteroid run the chain reaction over the resulting collection.
Particle effects and the probabilistic powerup drop touch only the
particle/powerup collections and are outside the modelled state. -/
def handle_asteroid_hit (asts : List Asteroid) (score : ℤ) (a : Asteroid)
    (r : SplitRand) : List Asteroid × ℤ :=
  let asts1 := removeById a.id asts
  let score1 := score + sizeScore a.size + typeBonus a.type
  let asts2 := asts1 ++ splitChildren a r
  let asts3 := if a.type = .unstable then chainReaction a.x a.y asts2 else asts2
  (asts3, score1)

/-- A concrete enemy state in the `evade` behavior state, two health, ready
to shoot, not avoiding an asteroid, with both strategy timers still
running. -/
def enemyEvadeS : Enemy.State :=
  { rotation := 0, health := 2, shootCooldown := 0, acceleration := 0,
    active := true, respawnTimer := 0, behaviorTimer := 5,
    behaviorState := .evade, hasLastPlayerPos := true, lastDetectionTime := 0,
    avoidingAsteroid := false, avoidanceDirection := 0, avoidanceTimer := 0,
    predictionFactor := 8/10, flankingDirection := 1, burstFireCount := 0,
    burstFireCooldown := 0, burstFireDelay := 0, shotAccuracy := 9/10,
    burstMode := false, strategyChangeTimer := 10, aimPredictTime := 1/2 }

/-- Random draws for `enemyEvadeS`: the evade-branch speculative-shot roll
succeeds (0.1 < 0.3); every other roll fails. -/
def enemyEvadeR : Enemy.Rand :=
  { stratFlankDir := 1, stratPredFactor := 1, stratAimPredict := 1,
    stratTimer := 10, behaviorRoll := 1, behaviorTimerNew := 1, missRoll := 1,
    evadeRoll := 1/10, lostRoll := 1, wanderRoll1 := 1, wanderRot := 0,
    wanderRoll2 := 1, wanderAccel := 0, wanderRoll3 := 1,
    respawnRotation := 0, respawnAccuracy := 9/10, respawnFlankDir := 1,
    respawnPredFactor := 1, respawnStratTimer := 10 }

/-- A concrete enemy state in the `attack` behavior state, aimed directly at
its target and ready to shoot. -/
def enemyAttackS : Enemy.State :=
  { rotation := 0, health := 4, shootCooldown := 0, acceleration := 0,
    active := true, respawnTimer := 0, behaviorTimer := 5,
    behaviorState := .attack, hasLastPlayerPos := true, lastDetectionTime := 0,
    avoidingAsteroid := false, avoidanceDirection := 0, avoidanceTimer := 0,
    predictionFactor := 8/10, flankingDirection := 1, burstFireCount := 0,
    burstFireCooldown := 0, burstFireDelay := 0, shotAccuracy := 9/10,
    burstMode := false, strategyChangeTimer := 10, aimPredictTime := 1/2 }

/-- Random draws for `enemyAttackS`: the accuracy-suppression roll lets the
shot through; every other roll fails. -/
def enemyAttackR : Enemy.Rand :=
  { stratFlankDir := 1, stratPredFactor := 1, stratAimPredict := 1,
    stratTimer := 10, behaviorRoll := 1, behaviorTimerNew := 1,
    missRoll := 1/2, evadeRoll := 1, lostRoll := 1, wanderRoll1 := 1,
    wanderRot := 0, wanderRoll2 := 1, wanderAccel := 0, wanderRoll3 := 1,
    respawnRotation := 0, respawnAccuracy := 9/10, respawnFlankDir := 1,
    respawnPredFactor := 1, respawnStratTimer := 10 }

/-- A concrete unstable large asteroid at the origin. -/
def unstableA : Asteroid := ⟨0, 0, 0, 1, 1, .large, .unstable⟩

/-- A concrete small normal asteroid 50 units away, inside the blast
radius. -/
def nearbyB : Asteroid := ⟨1, 50, 0, 0, 0, .small, .normal⟩

/-- Concrete split draws with fresh ids 2 and 3. -/
def splitR : SplitRand := ⟨2, 5, 5, 3, 6, 6⟩

/-! ## Theorems -/

/-- C9: `check_collision` is symmetric; it holds exactly when the center
distance `d` is strictly below the sum of the radii; in the boundary case
where the distance equals the radius sum it is false. -/
theorem claim_C9 (a b : Ent) (d : ℚ) (hra : 0 ≤ a.radius) (hrb : 0 ≤ b.radius)
    (hd0 : 0 ≤ d) (hd : d * d = dist2 a b) :
    check_collision a b = check_collision b a ∧
    (check_collision a b = true ↔ d < a.radius + b.radius) ∧
    (d = a.radius + b.radius → check_collision a b = false) := by
  have hs : (0:ℚ) ≤ a.radius + b.radius := add_nonneg hra hrb
  have hiff : check_collision a b = true ↔ d < a.radius + b.radius := by
    unfold check_collision
    rw [decide_eq_true_iff, ← hd]
    exact (mul_self_lt_mul_self_iff hd0 hs).symm
  refine ⟨?_, hiff, ?_⟩
  · unfold check_collision
    have hsym : dist2 a b = dist2 b a := by unfold dist2; ring
    rw [hsym, add_comm a.radius b.radius]
  · intro he
    cases h : check_collision a b with
    | false => rfl
    | true => exact absurd (he ▸ hiff.mp h) (lt_irrefl _)

/-- Witness for C9 at the concrete entities `(0,0,r=1)` and `(3,4,r=2)`
whose center distance is 5. -/
theorem claim_C9_witness :
    check_collision ⟨0, 0, 1⟩ ⟨3, 4, 2⟩ = check_collision ⟨3, 4, 2⟩ ⟨0, 0, 1⟩ ∧
    (check_collision ⟨0, 0, 1⟩ ⟨3, 4, 2⟩ = true ↔
      (5:ℚ) < (Ent.mk 0 0 1).radius + (Ent.mk 3 4 2).radius) ∧
    ((5:ℚ) = (Ent.mk 0 0 1).radius + (Ent.mk 3 4 2).radius →
      check_collision ⟨0, 0, 1⟩ ⟨3, 4, 2⟩ = false) :=
  claim_C9 ⟨0, 0, 1⟩ ⟨3, 4, 2⟩ 5 (by norm_num) (by norm_num) (by norm_num)
    (by norm_num [dist2])

/-- C10: the magnet attraction force is zero at every distance at or beyond
the magnet radius; strictly inside the radius it is strictly decreasing in
the distance; and the velocity impulse applied to the powerup is a positive
multiple of the vector from the powerup toward the player. -/
theorem claim_C10 :
    (∀ d : ℚ, magnet_radius ≤ d → magnetForce d = 0) ∧
    (∀ d e : ℚ, 0 < d → d < e → e < magnet_radius →
      magnetForce e < magnetForce d) ∧
    (∀ dx dy d : ℚ, ∀ vel : Vec, 0 < d → d < magnet_radius →
      d * d = dx * dx + dy * dy →
      ∃ c : ℚ, 0 < c ∧
        magnetStep dx dy d vel = some ⟨vel.x + c * dx, vel.y + c * dy⟩) := by
  refine ⟨?_, ?_, ?_⟩
  · intro d hd
    unfold magnetForce
    rw [if_neg (not_lt.mpr hd)]
  · intro d e hd hde heR
    have hdR : d < magnet_radius := lt_trans hde heR
    unfold magnetForce
    rw [if_pos heR, if_pos hdR]
    unfold magnet_radius at *
    have h1 : d / 250 < e / 250 := by linarith
    linarith
  · intro dx dy d vel hd hdR _
    have hF : 0 < magnetForce d := by
      unfold magnetForce
      rw [if_pos hdR]
      unfold magnet_radius at hdR ⊢
      have : d / 250 < 1 := by linarith
      linarith
    refine ⟨magnetForce d / d, div_pos hF hd, ?_⟩
    unfold magnetStep
    rw [if_pos hdR, if_neg (ne_of_gt hd)]
    have h1 : dx / d * magnetForce d = magnetForce d / d * dx := by ring
    have h2 : dy / d * magnetForce d = magnetForce d / d * dy := by ring
    rw [h1, h2]

/-- Witness for C10: force 0 at the radius, forces ordered at distances 50
versus 100, and an explicit attraction impulse at distance 5. -/
theorem claim_C10_witness :
    magnetForce 250 = 0 ∧ magnetForce 100 < magnetForce 50 ∧
    (∃ c : ℚ, 0 < c ∧
      magnetStep 3 4 5 ⟨0, 0⟩ = some ⟨0 + c * 3, 0 + c * 4⟩) :=
  ⟨claim_C10.1 250 (by norm_num [magnet_radius]),
   claim_C10.2.1 50 100 (by norm_num) (by norm_num) (by norm_num [magnet_radius]),
   claim_C10.2.2 3 4 5 ⟨0, 0⟩ (by norm_num) (by norm_num [magnet_radius])
     (by norm_num)⟩

/-- C2 counterexample: a powerup at distance exactly 0 from the player is
inside the magnet radius, and applying the magnet attraction to it divides
by zero (the embedding returns `none` where Python raises
`ZeroDivisionError`): the division is guarded only by
`distance < magnet_radius`, not by an explicit zero-check. -/
theorem claim_C2_cex :
    (0:ℚ) < magnet_radius ∧ magnetStep 0 0 0 ⟨0, 0⟩ = none := by
  exact ⟨by norm_num [magnet_radius], rfl⟩

/-- C2 (amended): the flank-offset normalization is guarded by an explicit
`length > 0` zero-check (a zero-length direction leaves the target
unchanged), but the magnet attraction is not; it divides by zero at
distance exactly 0.  In the tick flow that input cannot arise: a powerup
whose distance to the player fails `check_collision` has distance at least
the (positive) radius sum, so the magnet attraction applied to every
powerup surviving the collection pass performs no division by zero. -/
theorem claim_C2 (tx ty dirx diry fd : ℚ) (p u : Ent) (d : ℚ) (vel : Vec)
    (hr : 0 < p.radius + u.radius) (hd0 : 0 ≤ d) (hd : d * d = dist2 p u)
    (hsurv : check_collision p u = false) :
    flankOffset tx ty dirx diry 0 fd = (tx, ty) ∧
    magnetStep (p.x - u.x) (p.y - u.y) d vel ≠ none := by
  constructor
  · unfold flankOffset
    rw [if_neg (lt_irrefl 0)]
  · have hge : p.radius + u.radius ≤ d := by
      by_contra hlt
      push_neg at hlt
      have hcol : check_collision p u = true := by
        unfold check_collision
        rw [decide_eq_true_iff, ← hd]
        exact (mul_self_lt_mul_self_iff hd0 (le_of_lt hr)).mp hlt
      rw [hcol] at hsurv
      exact Bool.noConfusion hsurv
    have hdne : d ≠ 0 := ne_of_gt (lt_of_lt_of_le hr hge)
    unfold magnetStep
    by_cases hR : d < magnet_radius
    · rw [if_pos hR, if_neg hdne]
      exact fun h => Option.noConfusion h
    · rw [if_neg hR]
      exact fun h => Option.noConfusion h

/-- Witness for C2 (amended) with a player of radius 20 at the origin and a
surviving powerup of radius 25 at distance 45. -/
theorem claim_C2_witness :
    flankOffset 1 2 3 4 0 1 = (1, 2) ∧
    magnetStep ((Ent.mk 0 0 20).x - (Ent.mk 45 0 25).x)
      ((Ent.mk 0 0 20).y - (Ent.mk 45 0 25).y) 45 ⟨0, 0⟩ ≠ none :=
  claim_C2 1 2 3 4 1 ⟨0, 0, 20⟩ ⟨45, 0, 25⟩ 45 ⟨0, 0⟩ (by norm_num)
    (by norm_num) (by norm_num [dist2]) (by norm_num [check_collision, dist2])

/-- A player timer block in Player.update leaves the flag active and takes
one decrement when more than `dt` remains. -/
theorem playerTimerTick_of_lt (t dt : ℚ) (h : dt < t) :
    playerTimerTick true t dt = (true, t - dt) := by
  unfold playerTimerTick
  rw [if_pos rfl, if_neg (by linarith : ¬ t - dt ≤ 0)]

/-- A gameplay timer block takes one decrement whenever the flag is active
and the timer is positive. -/
theorem gameplayTimerTick_snd (t dt : ℚ) (h : 0 < t) :
    (gameplayTimerTick true t dt).2 = t - dt := by
  unfold gameplayTimerTick
  rw [if_pos ⟨rfl, h⟩]
  split <;> rfl

/-- C5: each active power-up timer is decremented twice per gameplay tick —
once by Player.update and once more by GameplayState.update — so an active
timer holding `t > dt` holds `t - 2·dt` after one tick (hence a power-up
granted for N seconds of timer expires after about N/2 seconds of play). -/
theorem claim_C5 (s : PlayerTimers) (dt : ℚ) :
    (s.invulnerable = true → dt < s.invulnerableTimer →
      (tickPowerupTimers s dt).invulnerableTimer = s.invulnerableTimer - 2 * dt) ∧
    (s.rapidFire = true → dt < s.rapidFireTimer →
      (tickPowerupTimers s dt).rapidFireTimer = s.rapidFireTimer - 2 * dt) ∧
    (s.timeSlow = true → dt < s.timeSlowTimer →
      (tickPowerupTimers s dt).timeSlowTimer = s.timeSlowTimer - 2 * dt) ∧
    (s.tripleShot = true → dt < s.tripleShotTimer →
      (tickPowerupTimers s dt).tripleShotTimer = s.tripleShotTimer - 2 * dt) ∧
    (s.magnet = true → dt < s.magnetTimer →
      (tickPowerupTimers s dt).magnetTimer = s.magnetTimer - 2 * dt) := by
  refine ⟨?_, ?_, ?_, ?_, ?_⟩ <;> intro ha h
  · show (gameplayTimerTick (playerTimerTick s.invulnerable s.invulnerableTimer dt).1
      (playerTimerTick s.invulnerable s.invulnerableTimer dt).2 dt).2 = _
    rw [ha, playerTimerTick_of_lt _ _ h]
    show (gameplayTimerTick true (s.invulnerableTimer - dt) dt).2 = _
    rw [gameplayTimerTick_snd _ _ (by linarith)]
    ring
  · show (gameplayTimerTick (playerTimerTick s.rapidFire s.rapidFireTimer dt).1
      (playerTimerTick s.rapidFire s.rapidFireTimer dt).2 dt).2 = _
    rw [ha, playerTimerTick_of_lt _ _ h]
    show (gameplayTimerTick true (s.rapidFireTimer - dt) dt).2 = _
    rw [gameplayTimerTick_snd _ _ (by linarith)]
    ring
  · show (gameplayTimerTick (playerTimerTick s.timeSlow s.timeSlowTimer dt).1
      (playerTimerTick s.timeSlow s.timeSlowTimer dt).2 dt).2 = _
    rw [ha, playerTimerTick_of_lt _ _ h]
    show (gameplayTimerTick true (s.timeSlowTimer - dt) dt).2 = _
    rw [gameplayTimerTick_snd _ _ (by linarith)]
    ring
  · show (gameplayTimerTick (playerTimerTick s.tripleShot s.tripleShotTimer dt).1
      (playerTimerTick s.tripleShot s.tripleShotTimer dt).2 dt).2 = _
    rw [ha, playerTimerTick_of_lt _ _ h]
    show (gameplayTimerTick true (s.tripleShotTimer - dt) dt).2 = _
    rw [gameplayTimerTick_snd _ _ (by linarith)]
    ring
  · show (gameplayTimerTick (playerTimerTick s.magnet s.magnetTimer dt).1
      (playerTimerTick s.magnet s.magnetTimer dt).2 dt).2 = _
    rw [ha, playerTimerTick_of_lt _ _ h]
    show (gameplayTimerTick true (s.magnetTimer - dt) dt).2 = _
    rw [gameplayTimerTick_snd _ _ (by linarith)]
    ring

/-- Witness for C5: all five power-up timers at 10 seconds drop to 8 after
one tick with dt = 1. -/
theorem claim_C5_witness :
    ((tickPowerupTimers ⟨true, 10, true, 10, true, 10, true, 10, true, 10, 0⟩ 1).invulnerableTimer
      = 10 - 2 * 1) ∧
    ((tickPowerupTimers ⟨true, 10, true, 10, true, 10, true, 10, true, 10, 0⟩ 1).rapidFireTimer
      = 10 - 2 * 1) ∧
    ((tickPowerupTimers ⟨true, 10, true, 10, true, 10, true, 10, true, 10, 0⟩ 1).timeSlowTimer
      = 10 - 2 * 1) ∧
    ((tickPowerupTimers ⟨true, 10, true, 10, true, 10, true, 10, true, 10, 0⟩ 1).tripleShotTimer
      = 10 - 2 * 1) ∧
    ((tickPowerupTimers ⟨true, 10, true, 10, true, 10, true, 10, true, 10, 0⟩ 1).magnetTimer
      = 10 - 2 * 1) :=
  ⟨(claim_C5 _ 1).1 rfl (by norm_num), (claim_C5 _ 1).2.1 rfl (by norm_num),
   (claim_C5 _ 1).2.2.1 rfl (by norm_num), (claim_C5 _ 1).2.2.2.1 rfl (by norm_num),
   (claim_C5 _ 1).2.2.2.2 rfl (by norm_num)⟩

/-- C8: a non-invulnerable player colliding with an asteroid loses a life;
from 3 lives the player is repositioned to the screen center with zero
velocity and 3.0 seconds of invulnerability; from 1 life (reaching 0 after
the decrement) the game-over flag is set and no repositioning happens. -/
theorem claim_C8 (g : GameplayS) (ast : Ent)
    (hinv : g.player.invulnerable = false)
    (hcol : check_collision ⟨g.player.x, g.player.y, 20⟩ ast = true) :
    (g.player.lives = 3 →
      (player_destroyed g).player.lives = 2 ∧
      (player_destroyed g).player.x = ((g.screenWidth / 2 : ℕ) : ℚ) ∧
      (player_destroyed g).player.y = ((g.screenHeight / 2 : ℕ) : ℚ) ∧
      (player_destroyed g).player.velX = 0 ∧
      (player_destroyed g).player.velY = 0 ∧
      (player_destroyed g).player.invulnerable = true ∧
      (player_destroyed g).player.invulnerableTimer = 3 ∧
      (player_destroyed g).gameOver = g.gameOver) ∧
    (g.player.lives = 1 →
      (player_destroyed g).gameOver = true ∧
      (player_destroyed g).player.x = g.player.x ∧
      (player_destroyed g).player.y = g.player.y ∧
      (player_destroyed g).player.invulnerable = g.player.invulnerable) := by
  constructor
  · intro h3
    have hpos : ¬ g.player.lives - 1 ≤ 0 := by rw [h3]; norm_num
    unfold player_destroyed
    rw [if_neg hpos]
    refine ⟨?_, rfl, rfl, rfl, rfl, rfl, rfl, rfl⟩
    show g.player.lives - 1 = 2
    rw [h3]
    norm_num
  · intro h1
    have hneg : g.player.lives - 1 ≤ 0 := by rw [h1]; norm_num
    unfold player_destroyed
    rw [if_pos hneg]
    exact ⟨rfl, rfl, rfl, rfl⟩

/-- Witness for C8 at a concrete 800×600 screen: one player with 3 lives,
one with 1 life, both hit by an overlapping asteroid. -/
theorem claim_C8_witness :
    ((player_destroyed ⟨⟨100, 100, 5, 5, 90, 3, false, 0⟩, false, 800, 600⟩).player.lives = 2 ∧
     (player_destroyed ⟨⟨100, 100, 5, 5, 90, 3, false, 0⟩, false, 800, 600⟩).player.x
       = ((800 / 2 : ℕ) : ℚ) ∧
     (player_destroyed ⟨⟨100, 100, 5, 5, 90, 3, false, 0⟩, false, 800, 600⟩).player.y
       = ((600 / 2 : ℕ) : ℚ) ∧
     (player_destroyed ⟨⟨100, 100, 5, 5, 90, 3, false, 0⟩, false, 800, 600⟩).player.velX = 0 ∧
     (player_destroyed ⟨⟨100, 100, 5, 5, 90, 3, false, 0⟩, false, 800, 600⟩).player.velY = 0 ∧
     (player_destroyed ⟨⟨100, 100, 5, 5, 90, 3, false, 0⟩, false, 800, 600⟩).player.invulnerable
       = true ∧
     (player_destroyed ⟨⟨100, 100, 5, 5, 90, 3, false, 0⟩, false, 800, 600⟩).player.invulnerableTimer
       = 3 ∧
     (player_destroyed ⟨⟨100, 100, 5, 5, 90, 3, false, 0⟩, false, 800, 600⟩).gameOver = false) ∧
    ((player_destroyed ⟨⟨100, 100, 5, 5, 90, 1, false, 0⟩, false, 800, 600⟩).gameOver = true ∧
     (player_destroyed ⟨⟨100, 100, 5, 5, 90, 1, false, 0⟩, false, 800, 600⟩).player.x = 100 ∧
     (player_destroyed ⟨⟨100, 100, 5, 5, 90, 1, false, 0⟩, false, 800, 600⟩).player.y = 100 ∧
     (player_destroyed ⟨⟨100, 100, 5, 5, 90, 1, false, 0⟩, false, 800, 600⟩).player.invulnerable
       = false) :=
  ⟨(claim_C8 ⟨⟨100, 100, 5, 5, 90, 3, false, 0⟩, false, 800, 600⟩ ⟨100, 100, 40⟩ rfl
      (by norm_num [check_collision, dist2])).1 rfl,
   (claim_C8 ⟨⟨100, 100, 5, 5, 90, 1, false, 0⟩, false, 800, 600⟩ ⟨100, 100, 40⟩ rfl
      (by norm_num [check_collision, dist2])).2 rfl⟩

/-- C7: a projectile whose velocity angle is within 0.5 rad of the player's
rotation, colliding with the active enemy at health 1, drives the health to
0, deactivates the enemy, sets its respawn timer to exactly 8.0 and adds
exactly 500 to the score. -/
theorem claim_C7 (proj ent : Ent) (e : Enemy.State) (score : ℤ) (p q coin : ℚ)
    (hact : e.active = true) (hcol : check_collision proj ent = true)
    (hh : e.health = 1)
    (hang : |p - q| < 1/2 ∨ |p - q - 2 * mathPi| < 1/2) :
    (projectileEnemyHit e score p q coin).1.health = 0 ∧
    (projectileEnemyHit e score p q coin).1.active = false ∧
    (projectileEnemyHit e score p q coin).1.respawnTimer = 8 ∧
    (projectileEnemyHit e score p q coin).2 = score + 500 := by
  have hcond : |p - q| < 1/2 ∨ 2 * mathPi - 1/2 < |p - q| := by
    rcases hang with h | h
    · exact Or.inl h
    · right
      have hpi : (1:ℚ) < 2 * mathPi - 1/2 := by norm_num [mathPi]
      obtain ⟨hl, _⟩ := abs_lt.mp h
      have h1 : 2 * mathPi - 1/2 < p - q := by linarith
      exact lt_of_lt_of_le h1 (le_abs_self _)
  have hdead : ({ e with health := e.health - 1 } : Enemy.State).health ≤ 0 := by
    show e.health - 1 ≤ 0
    rw [hh]
    norm_num
  unfold projectileEnemyHit
  rw [if_pos hcond]
  unfold Enemy.take_damage
  rw [if_pos hdead]
  refine ⟨?_, by rfl, by rfl, by rfl⟩
  show e.health - 1 = 0
  rw [hh]
  norm_num

/-- Witness for C7: a projectile at angle 1/4 rad against a player rotation
of 0 rad, overlapping an active enemy at health 1. -/
theorem claim_C7_witness :
    (projectileEnemyHit { enemyAttackS with health := 1 } 0 (1/4) 0 (1/4)).1.health = 0 ∧
    (projectileEnemyHit { enemyAttackS with health := 1 } 0 (1/4) 0 (1/4)).1.active = false ∧
    (projectileEnemyHit { enemyAttackS with health := 1 } 0 (1/4) 0 (1/4)).1.respawnTimer = 8 ∧
    (projectileEnemyHit { enemyAttackS with health := 1 } 0 (1/4) 0 (1/4)).2 = 0 + 500 :=
  claim_C7 ⟨0, 0, 3⟩ ⟨0, 0, 20⟩ { enemyAttackS with health := 1 } 0 (1/4) 0 (1/4)
    rfl (by norm_num [check_collision, dist2]) rfl
    (Or.inl (by rw [show (1:ℚ)/4 - 0 = 1/4 by ring, abs_of_nonneg (by norm_num)]; norm_num))

/-- C3: an asteroid destroyed by a projectile splits by size — large into
exactly 2 medium children, medium into exactly 2 small children, small into
none — each child spawned at the destroyed asteroid's `(x, y)` with the
same type; and destroying a large normal asteroid adds exactly 100 to the
score and leaves the collection with the hit asteroid removed and the two
children appended. -/
theorem claim_C3 (asts : List Asteroid) (score : ℤ) (a : Asteroid)
    (r : SplitRand) (ha : a ∈ asts) :
    (a.size = .large →
      splitChildren a r =
        [⟨r.id1, a.x, a.y, r.vx1, r.vy1, .medium, a.type⟩,
         ⟨r.id2, a.x, a.y, r.vx2, r.vy2, .medium, a.type⟩]) ∧
    (a.size = .medium →
      splitChildren a r =
        [⟨r.id1, a.x, a.y, r.vx1, r.vy1, .small, a.type⟩,
         ⟨r.id2, a.x, a.y, r.vx2, r.vy2, .small, a.type⟩]) ∧
    (a.size = .small → splitChildren a r = []) ∧
    (a.size = .large → a.type = .normal →
      (handle_asteroid_hit asts score a r).2 = score + 100 ∧
      (handle_asteroid_hit asts score a r).1
        = removeById a.id asts ++ splitChildren a r) := by
  refine ⟨?_, ?_, ?_, ?_⟩
  · intro h
    unfold splitChildren
    rw [h]
    rfl
  · intro h
    unfold splitChildren
    rw [h]
    rfl
  · intro h
    unfold splitChildren
    rw [h]
    rfl
  · intro hsz hty
    constructor
    · unfold handle_asteroid_hit
      rw [hsz, hty]
      show score + sizeScore .large + typeBonus .normal = score + 100
      norm_num [sizeScore, typeBonus]
    · unfold handle_asteroid_hit
      rw [hty]
      show (if (AType.normal = AType.unstable)
            then chainReaction a.x a.y (removeById a.id asts ++ splitChildren a r)
            else removeById a.id asts ++ splitChildren a r)
          = removeById a.id asts ++ splitChildren a r
      rw [if_neg (by simp)]

/-- Witness for C3: a large, a medium and a small normal asteroid, each the
only element of its collection, hit with explicit child draws. -/
theorem claim_C3_witness :
    (splitChildren ⟨0, 100, 100, 1, 1, .large, .normal⟩ ⟨1, 10, 0, 2, 0, 10⟩ =
      [⟨1, 100, 100, 10, 0, .medium, .normal⟩, ⟨2, 100, 100, 0, 10, .medium, .normal⟩]) ∧
    (splitChildren ⟨0, 100, 100, 1, 1, .medium, .normal⟩ ⟨1, 10, 0, 2, 0, 10⟩ =
      [⟨1, 100, 100, 10, 0, .small, .normal⟩, ⟨2, 100, 100, 0, 10, .small, .normal⟩]) ∧
    (splitChildren ⟨0, 100, 100, 1, 1, .small, .normal⟩ ⟨1, 10, 0, 2, 0, 10⟩ = []) ∧
    ((handle_asteroid_hit [⟨0, 100, 100, 1, 1, .large, .normal⟩] 0
        ⟨0, 100, 100, 1, 1, .large, .normal⟩ ⟨1, 10, 0, 2, 0, 10⟩).2 = 0 + 100 ∧
     (handle_asteroid_hit [⟨0, 100, 100, 1, 1, .large, .normal⟩] 0
        ⟨0, 100, 100, 1, 1, .large, .normal⟩ ⟨1, 10, 0, 2, 0, 10⟩).1
       = removeById 0 [⟨0, 100, 100, 1, 1, .large, .normal⟩] ++
         splitChildren ⟨0, 100, 100, 1, 1, .large, .normal⟩ ⟨1, 10, 0, 2, 0, 10⟩) :=
  ⟨(claim_C3 [⟨0, 100, 100, 1, 1, .large, .normal⟩] 0 ⟨0, 100, 100, 1, 1, .large, .normal⟩
      ⟨1, 10, 0, 2, 0, 10⟩ (List.mem_singleton.mpr rfl)).1 rfl,
   (claim_C3 [⟨0, 100, 100, 1, 1, .medium, .normal⟩] 0 ⟨0, 100, 100, 1, 1, .medium, .normal⟩
      ⟨1, 10, 0, 2, 0, 10⟩ (List.mem_singleton.mpr rfl)).2.1 rfl,
   (claim_C3 [⟨0, 100, 100, 1, 1, .small, .normal⟩] 0 ⟨0, 100, 100, 1, 1, .small, .normal⟩
      ⟨1, 10, 0, 2, 0, 10⟩ (List.mem_singleton.mpr rfl)).2.2.1 rfl,
   (claim_C3 [⟨0, 100, 100, 1, 1, .large, .normal⟩] 0 ⟨0, 100, 100, 1, 1, .large, .normal⟩
      ⟨1, 10, 0, 2, 0, 10⟩ (List.mem_singleton.mpr rfl)).2.2.2 rfl rfl⟩

/-- When all ids in the collection are distinct, `list.remove` (removal of
the first identity match) removes exactly the matching elements. -/
theorem removeById_eq_filter (i : ℕ) (l : List Asteroid)
    (h : (l.map Asteroid.id).Nodup) :
    removeById i l = l.filter (fun b => ! (b.id == i)) := by
  induction l with
  | nil => rfl
  | cons b l ih =>
    rw [List.map_cons, List.nodup_cons] at h
    by_cases hb : b.id = i
    · unfold removeById
      rw [List.eraseP_cons_of_pos (by simp [hb]),
        List.filter_cons_of_neg (by simp [hb])]
      symm
      rw [List.filter_eq_self]
      intro x hx
      simp only [Bool.not_eq_true', beq_eq_false_iff_ne, ne_eq]
      intro hxi
      apply h.1
      rw [hb, ← hxi]
      exact List.mem_map_of_mem Asteroid.id hx
    · unfold removeById at ih ⊢
      rw [List.eraseP_cons_of_neg (by simp [hb]),
        List.filter_cons_of_pos (by simp [hb]), ih h.2]

/-- The chain-reaction fold (iterate a copy `todo`, removing each in-blast
element from the live list `cur`) acts as a filter when ids are distinct. -/
theorem chainFold_eq_filter (cx cy : ℚ) (todo : List Asteroid) :
    ∀ cur : List Asteroid, (cur.map Asteroid.id).Nodup →
      todo.foldl (fun c b => if inBlast cx cy b then removeById b.id c else c) cur
        = cur.filter
            (fun c => decide (c.id ∉ (todo.filter (inBlast cx cy)).map Asteroid.id)) := by
  induction todo with
  | nil =>
    intro cur _
    rw [List.foldl_nil]
    symm
    rw [List.filter_eq_self]
    intro x _
    simp
  | cons b todo ih =>
    intro cur h
    rw [List.foldl_cons]
    by_cases hb : inBlast cx cy b = true
    · rw [if_pos hb, removeById_eq_filter b.id cur h]
      have hnd' : (((cur.filter (fun c => ! (c.id == b.id))).map Asteroid.id)).Nodup :=
        h.sublist ((List.filter_sublist cur).map Asteroid.id)
      rw [ih _ hnd', List.filter_filter, List.filter_cons_of_pos hb]
      apply List.filter_congr
      intro x _
      by_cases h1 : x.id = b.id <;>
        by_cases h2 : x.id ∈ (todo.filter (inBlast cx cy)).map Asteroid.id <;>
          simp [h1, h2]
    · rw [if_neg hb, ih cur h, List.filter_cons_of_neg hb]

/-- The chain reaction over a collection with distinct ids removes exactly
the asteroids inside the blast radius. -/
theorem chainReaction_eq_filter (cx cy : ℚ) (l : List Asteroid)
    (h : (l.map Asteroid.id).Nodup) :
    chainReaction cx cy l = l.filter (fun c => ! inBlast cx cy c) := by
  unfold chainReaction
  rw [chainFold_eq_filter cx cy l l h]
  apply List.filter_congr
  intro x hx
  by_cases hB : inBlast cx cy x = true
  · rw [hB]
    have hmem : x.id ∈ (l.filter (inBlast cx cy)).map Asteroid.id :=
      List.mem_map_of_mem Asteroid.id (List.mem_filter.mpr ⟨hx, hB⟩)
    simp [hmem]
  · have hB' : inBlast cx cy x = false := by simpa using hB
    rw [hB']
    have hnm : x.id ∉ (l.filter (inBlast cx cy)).map Asteroid.id := by
      intro hmem
      obtain ⟨y, hy, hid⟩ := List.mem_map.mp hmem
      obtain ⟨hyl, hyB⟩ := List.mem_filter.mp hy
      have hyx : y = x := List.inj_on_of_nodup_map h hyl hx hid
      rw [hyx, hB'] at hyB
      exact Bool.noConfusion hyB
    simp [hnm]

/-- An in-blast element of a collection with distinct ids does not survive
the blast filter, not even through another element with the same id. -/
theorem id_not_mem_of_inBlast (cx cy : ℚ) (base : List Asteroid)
    (hnd : (base.map Asteroid.id).Nodup) (c : Asteroid)
    (hc : c ∈ base) (hB : inBlast cx cy c = true) :
    c.id ∉ (base.filter (fun b => ! inBlast cx cy b)).map Asteroid.id := by
  intro hmem
  obtain ⟨b, hb, hid⟩ := List.mem_map.mp hmem
  obtain ⟨hbl, hbK⟩ := List.mem_filter.mp hb
  have hbc : b = c := List.inj_on_of_nodup_map hnd hbl hc hid
  rw [hbc, hB] at hbK
  exact Bool.noConfusion hbK

/-- On an unstable asteroid, handle_asteroid_hit leaves exactly the
out-of-blast part of the collection obtained by removing the hit asteroid
and appending its children. -/
theorem handle_hit_unstable_eq_filter (asts : List Asteroid) (score : ℤ)
    (a : Asteroid) (r : SplitRand) (hu : a.type = .unstable)
    (hnd : ((removeById a.id asts ++ splitChildren a r).map Asteroid.id).Nodup) :
    (handle_asteroid_hit asts score a r).1
      = (removeById a.id asts ++ splitChildren a r).filter
          (fun c => ! inBlast a.x a.y c) := by
  unfold handle_asteroid_hit
  rw [hu]
  show (if (AType.unstable = AType.unstable)
        then chainReaction a.x a.y (removeById a.id asts ++ splitChildren a r)
        else removeById a.id asts ++ splitChildren a r) = _
  rw [if_pos rfl]
  exact chainReaction_eq_filter a.x a.y _ hnd

/-- C4: destroying an unstable asteroid removes every other asteroid within
the blast radius 100 from the collection exactly once (the survivors are
exactly the out-of-blast asteroids), the scan attempts no removal twice, a
removed id is gone from the resulting collection, and a second unstable
detonation in the same tick (which scans the updated collection) cannot
attempt any of those removals again. -/
theorem claim_C4 (asts : List Asteroid) (score : ℤ) (a : Asteroid)
    (r : SplitRand) (hu : a.type = .unstable)
    (hnd : ((removeById a.id asts ++ splitChildren a r).map Asteroid.id).Nodup) :
    (handle_asteroid_hit asts score a r).1
      = (removeById a.id asts ++ splitChildren a r).filter
          (fun c => ! inBlast a.x a.y c) ∧
    (chainRemovals a.x a.y (removeById a.id asts ++ splitChildren a r)).Nodup ∧
    (∀ i ∈ chainRemovals a.x a.y (removeById a.id asts ++ splitChildren a r),
      i ∉ (handle_asteroid_hit asts score a r).1.map Asteroid.id) ∧
    (∀ cx cy : ℚ,
      ∀ i ∈ chainRemovals a.x a.y (removeById a.id asts ++ splitChildren a r),
        i ∉ chainRemovals cx cy (handle_asteroid_hit asts score a r).1) := by
  have hres := handle_hit_unstable_eq_filter asts score a r hu hnd
  have hnotin : ∀ i ∈ chainRemovals a.x a.y (removeById a.id asts ++ splitChildren a r),
      i ∉ (handle_asteroid_hit asts score a r).1.map Asteroid.id := by
    intro i hi
    obtain ⟨c, hc, hci⟩ := List.mem_map.mp hi
    obtain ⟨hcl, hcB⟩ := List.mem_filter.mp hc
    rw [hres, ← hci]
    exact id_not_mem_of_inBlast a.x a.y _ hnd c hcl hcB
  refine ⟨hres, ?_, hnotin, ?_⟩
  · exact hnd.sublist ((List.filter_sublist _).map Asteroid.id)
  · intro cx cy i hi hmem2
    obtain ⟨c, hc, hci⟩ := List.mem_map.mp hmem2
    have hcr : c ∈ (handle_asteroid_hit asts score a r).1 := (List.mem_filter.mp hc).1
    exact hnotin i hi (by rw [← hci]; exact List.mem_map_of_mem Asteroid.id hcr)

/-- Witness for C4: an unstable large asteroid at the origin destroyed amid
one small asteroid 50 units away, with fresh child ids. -/
theorem claim_C4_witness :
    ((handle_asteroid_hit [unstableA, nearbyB] 0 unstableA splitR).1
      = (removeById unstableA.id [unstableA, nearbyB] ++ splitChildren unstableA splitR).filter
          (fun c => ! inBlast unstableA.x unstableA.y c)) ∧
    (chainRemovals unstableA.x unstableA.y
      (removeById unstableA.id [unstableA, nearbyB] ++ splitChildren unstableA splitR)).Nodup ∧
    (∀ i ∈ chainRemovals unstableA.x unstableA.y
        (removeById unstableA.id [unstableA, nearbyB] ++ splitChildren unstableA splitR),
      i ∉ (handle_asteroid_hit [unstableA, nearbyB] 0 unstableA splitR).1.map Asteroid.id) ∧
    (∀ cx cy : ℚ, ∀ i ∈ chainRemovals unstableA.x unstableA.y
        (removeById unstableA.id [unstableA, nearbyB] ++ splitChildren unstableA splitR),
      i ∉ chainRemovals cx cy
          (handle_asteroid_hit [unstableA, nearbyB] 0 unstableA splitR).1) :=
  claim_C4 [unstableA, nearbyB] 0 unstableA splitR rfl
    (by simp [removeById, splitChildren, childSize, unstableA, nearbyB, splitR])

/-- C6: the size split happens before the unstable chain scan, so when a
large or medium unstable asteroid is destroyed, its two just-spawned
children — at the same position, distance 0 from the blast center — are
removed by its own blast, and no child survives the update. -/
theorem claim_C6 (asts : List Asteroid) (score : ℤ) (a : Asteroid)
    (r : SplitRand) (hu : a.type = .unstable)
    (hsz : a.size = .large ∨ a.size = .medium)
    (hnd : ((removeById a.id asts ++ splitChildren a r).map Asteroid.id).Nodup) :
    (splitChildren a r).length = 2 ∧
    ∀ c ∈ splitChildren a r,
      c.id ∉ (handle_asteroid_hit asts score a r).1.map Asteroid.id := by
  constructor
  · rcases hsz with h | h <;> (unfold splitChildren; rw [h]; rfl)
  · intro c hc
    have hcmem : c ∈ removeById a.id asts ++ splitChildren a r :=
      List.mem_append_right _ hc
    have hcpos : c.x = a.x ∧ c.y = a.y := by
      rcases hsz with h | h
      · unfold splitChildren at hc
        rw [h] at hc
        have hc' : c ∈ [(⟨r.id1, a.x, a.y, r.vx1, r.vy1, .medium, a.type⟩ : Asteroid),
                        ⟨r.id2, a.x, a.y, r.vx2, r.vy2, .medium, a.type⟩] := hc
        simp only [List.mem_cons, List.not_mem_nil, or_false] at hc'
        rcases hc' with rfl | rfl <;> exact ⟨rfl, rfl⟩
      · unfold splitChildren at hc
        rw [h] at hc
        have hc' : c ∈ [(⟨r.id1, a.x, a.y, r.vx1, r.vy1, .small, a.type⟩ : Asteroid),
                        ⟨r.id2, a.x, a.y, r.vx2, r.vy2, .small, a.type⟩] := hc
        simp only [List.mem_cons, List.not_mem_nil, or_false] at hc'
        rcases hc' with rfl | rfl <;> exact ⟨rfl, rfl⟩
    have hcB : inBlast a.x a.y c = true := by
      simp [inBlast, hcpos.1, hcpos.2]
    rw [handle_hit_unstable_eq_filter asts score a r hu hnd]
    exact id_not_mem_of_inBlast a.x a.y _ hnd c hcmem hcB

/-- Witness for C6: the unstable large asteroid's two children (ids 2 and 3)
do not survive its own detonation. -/
theorem claim_C6_witness :
    (splitChildren unstableA splitR).length = 2 ∧
    ∀ c ∈ splitChildren unstableA splitR,
      c.id ∉ (handle_asteroid_hit [unstableA, nearbyB] 5 unstableA splitR).1.map Asteroid.id :=
  claim_C6 [unstableA, nearbyB] 5 unstableA splitR rfl (Or.inl rfl)
    (by simp [removeById, splitChildren, childSize, unstableA, nearbyB, splitR])

/-- The evade state is not one of the aimed (seek/attack/ambush/flank)
states. -/
theorem evadeNotSeekFam :
    (Enemy.BState.evade = Enemy.BState.seek ∨ Enemy.BState.evade = Enemy.BState.attack ∨
     Enemy.BState.evade = Enemy.BState.ambush ∨ Enemy.BState.evade = Enemy.BState.flank) = False :=
  eq_false (by decide)

/-- C1 (amended): in the aimed states (seek/attack/ambush/flank) with the
player inside the detection range and no asteroid avoidance in progress,
Enemy.update returns a fire decision only when the absolute angular error
to its target is below 20 degrees; the evade state, the
pursuit-of-last-known-position branch (gated at 30 degrees) and the
wandering branch can fire at larger angular errors. -/
theorem claim_C1 (s : Enemy.State) (r : Enemy.Rand)
    (dt distPlayer targetAngle angPlayer lastPosAngle : ℚ)
    (havoid : s.avoidingAsteroid = false)
    (hin : distPlayer < Enemy.detection_range)
    (hst : s.behaviorState = .seek ∨ s.behaviorState = .attack ∨
           s.behaviorState = .ambush ∨ s.behaviorState = .flank)
    (hfire : (Enemy.updateDispatch s r dt distPlayer targetAngle angPlayer lastPosAngle).1
      = true) :
    |norm180 (targetAngle - s.rotation)| < 20 := by
  by_cases haim : |norm180 (targetAngle - s.rotation)| < 20
  · exact haim
  · exfalso
    unfold Enemy.updateDispatch at hfire
    rw [if_neg (by simp [havoid]), if_pos hin] at hfire
    dsimp only at hfire
    rw [if_pos hst, if_neg haim] at hfire
    simp at hfire

/-- C1 counterexample: an active enemy in the evade state, with the player
in detection range straight ahead (heading 0°), fires while its angular
error to its flee target (180°) is far above 20 degrees — both before the
update (error 180°) and after it (error 178.4°). -/
theorem claim_C1_cex :
    (Enemy.update enemyEvadeS enemyEvadeR (1/100) 100 0 0 0 none).1 = true ∧
    20 < |norm180 (mod360 (0 + 180) - enemyEvadeS.rotation)| ∧
    20 < |norm180 (mod360 (0 + 180)
        - (Enemy.update enemyEvadeS enemyEvadeR (1/100) 100 0 0 0 none).2.rotation)| := by
  refine ⟨?_, ?_, ?_⟩
  · norm_num [Enemy.update, Enemy.updatePreamble, Enemy.updateDispatch,
      Enemy.updateBehaviorState, Enemy.startAsteroidAvoidance, Enemy.fireSlot,
      Enemy.updateTail, Enemy.rotation_speed, Enemy.shoot_rate,
      Enemy.detection_range, enemyEvadeS, enemyEvadeR, norm180, mod360,
      rotateToward, abs_of_pos, abs_of_nonneg, evadeNotSeekFam]
  · norm_num [enemyEvadeS, norm180, mod360, abs_of_pos, abs_of_nonneg]
  · norm_num [Enemy.update, Enemy.updatePreamble, Enemy.updateDispatch,
      Enemy.updateBehaviorState, Enemy.startAsteroidAvoidance, Enemy.fireSlot,
      Enemy.updateTail, Enemy.rotation_speed, Enemy.shoot_rate,
      Enemy.detection_range, enemyEvadeS, enemyEvadeR, norm180, mod360,
      rotateToward, abs_of_pos, abs_of_nonneg, evadeNotSeekFam]

/-- Witness for C1 (amended) at a concrete attack-state enemy aimed
straight at its target that does fire. -/
theorem claim_C1_witness : |norm180 (0 - enemyAttackS.rotation)| < 20 :=
  claim_C1 enemyAttackS enemyAttackR (1/100) 100 0 0 0 rfl
    (by norm_num [Enemy.detection_range]) (Or.inr (Or.inl rfl))
    (by norm_num [Enemy.updateDispatch, Enemy.fireSlot, Enemy.updateTail,
      Enemy.rotation_speed, Enemy.shoot_rate, Enemy.detection_range,
      enemyAttackS, enemyAttackR, norm180, mod360, rotateToward,
      abs_of_pos, abs_of_nonneg])

end AsteroidsReborn
